import Mathlib

/-!
Shallow embedding of the monopoly-online-server lobby and turn engine
(src/server.py).  Python dicts are modelled as insertion-ordered
association lists, websocket connections as natural-number ids, and
randomness (dice, chance-card draws, lobby-code generation) as explicit
parameters of the step relation.  A Python exception escaping a handler
(KeyError / IndexError on a raw index) is modelled as the handler
returning `none`.
-/

namespace MonopolyServer

/-! ### Association lists with Python-dict semantics
`dset` updates in place when the key is present and appends otherwise,
matching CPython's insertion-ordered dicts. -/

def dget {κ α : Type} [DecidableEq κ] : List (κ × α) → κ → Option α
  | [], _ => none
  | (k', v) :: rest, k => if k' = k then some v else dget rest k

def dset {κ α : Type} [DecidableEq κ] : List (κ × α) → κ → α → List (κ × α)
  | [], k, v => [(k, v)]
  | (k', v') :: rest, k, v =>
      if k' = k then (k, v) :: rest else (k', v') :: dset rest k v

def derase {κ α : Type} [DecidableEq κ] : List (κ × α) → κ → List (κ × α)
  | [], _ => []
  | (k', v') :: rest, k => if k' = k then rest else (k', v') :: derase rest k

def dhas {κ α : Type} [DecidableEq κ] (l : List (κ × α)) (k : κ) : Bool :=
  (dget l k).isSome

/-- Python's `list.remove`: delete the first occurrence. -/
def removeFirst {α : Type} [DecidableEq α] : List α → α → List α
  | [], _ => []
  | x :: rest, a => if x = a then rest else x :: removeFirst rest a

/-! ### Data model (from `BOARD_DATA` / `PAWN_DATA` / lobby dicts) -/

/-- One board tile, as consumed from the external board catalog.
`ownerCosts` index 0 is the purchase price, index k the cost to reach
level k; `trespassCosts` is indexed by current level. -/
structure Tile where
  id : Nat
  name : String
  color : String
  ty : String
  purchasable : Bool
  levelable : Bool
  ownerCosts : List Int
  trespassCosts : List Int
  deriving DecidableEq, Repr

/-- Per-player state inside a lobby (the dict built in
`handle_game_create` / `handle_request_join`).  `ownedProperties` is a
Python list (appended to by BUY, so duplicates are representable);
`ownedPropertiesLevels` models the `owned-properties-levels` dict. -/
structure Player where
  username : String
  pawn : String
  position : Nat
  balance : Int
  ownedProperties : List Nat
  ownedPropertiesLevels : List (Nat × Nat)
  has_rolled : Bool
  deriving DecidableEq, Repr

/-- One lobby (`lobbies[code]`). -/
structure Lobby where
  players : List (Nat × Player)
  host : Nat
  started : Bool
  current_turn_index : Nat
  player_order : List Nat
  deriving DecidableEq, Repr

/-- The global `players` table entry (`players[websocket]`). -/
structure PlayerRef where
  lobby : String
  username : String
  deriving DecidableEq, Repr

/-- The two global registries. -/
structure ServerState where
  lobbies : List (String × Lobby)
  players : List (Nat × PlayerRef)
  deriving DecidableEq, Repr

def initState : ServerState := { lobbies := [], players := [] }

/-! ### Outbound messages and events -/

inductive Msg where
  | ERROR (code : Nat) (message : String)
  | NEW_GAME (lobbyCode : String)
  | NEW_PLAYER (username pawn : String)
  | JOIN_GAME (playerList : List (String × String))
  | GAME_START_EVT
  | NEXT_TURN (player : String)
  | PLAYER_DATA (username : String) (balance : Int)
      (props : List (Nat × String × String × Nat))
  | SET_POSITION (player : String) (position : Nat)
  | TRANSACTION (balanceChange balanceSync : Int)
  | CHOICE (buyDescription : String)
  | TILE_MESSAGE (title message : String)
  | PROPERTY_TRANSFER (id : Nat) (name color : String) (level : Nat)
  | PROPERTY_UPGRADE (id : Nat) (level : Nat)
  | GAME_END_EVT (reason : String)
  deriving DecidableEq, Repr

/-- A single `send_json(ws, m)`. -/
inductive Event where
  | send (ws : Nat) (m : Msg)
  deriving DecidableEq, Repr

/-- `broadcast_to_lobby`: one send per member of the lobby, in player-dict
insertion order, skipping `exclude`. -/
def broadcastEvents (lobbies : List (String × Lobby)) (code : String)
    (m : Msg) (exclude : Option Nat) : List Event :=
  match dget lobbies code with
  | none => []
  | some lb =>
      (lb.players.map Prod.fst).filterMap fun ws =>
        if some ws = exclude then none else some (Event.send ws m)

/-- Result of one handler: the new global state, the events it sent
itself, and the error it returned (which `handle_message` then sends to
the requester). -/
structure Outcome where
  state : ServerState
  events : List Event
  reply : Option Msg
  deriving DecidableEq, Repr

/-- What the requester/lobby actually see on the wire for one request:
the handler's own sends followed by the returned error (sent by
`handle_message` to the requesting connection only). -/
def observableSends (ws : Nat) (o : Outcome) : List Event :=
  o.events ++ (match o.reply with
    | some m => [Event.send ws m]
    | none => [])

def replyCode (o : Outcome) : Option Nat :=
  match o.reply with
  | some (Msg.ERROR c _) => some c
  | _ => none

def STARTING_BALANCE : Int := 1500

/-- `get_available_pawn` (server.py:32): the first catalog pawn whose
name is not already used in the lobby. -/
def get_available_pawn (pawns : List String) (lb : Lobby) : Option String :=
  pawns.find? fun pw => ¬ lb.players.any fun p => p.2.pawn == pw

/-- `handle_game_create` (server.py:56).  The freshly generated lobby
code is passed in as `code`; `generate_lobby_code`'s freshness guarantee
is enforced at the `step` level.  `PAWN_DATA["pawns"][0]` raising on an
empty catalog is modelled by the `get? 0` match. -/
def handle_game_create (pawns : List String) (s : ServerState)
    (ws : Nat) (username : String) (code : String) : Option Outcome :=
  if username = "" then
    some ⟨s, [], some (Msg.ERROR 400 "Username is required")⟩
  else
    match pawns.get? 0 with
    | none => none
    | some pawn =>
        let pl : Player :=
          { username := username, pawn := pawn, position := 0,
            balance := STARTING_BALANCE, ownedProperties := [],
            ownedPropertiesLevels := [], has_rolled := false }
        let lb : Lobby :=
          { players := [(ws, pl)], host := ws, started := false,
            current_turn_index := 0, player_order := [ws] }
        let s' : ServerState :=
          { lobbies := dset s.lobbies code lb,
            players := dset s.players ws ⟨code, username⟩ }
        some ⟨s', [Event.send ws (Msg.NEW_GAME code),
                   Event.send ws (Msg.NEW_PLAYER username pawn)], none⟩

/-- `handle_request_join` (server.py:98). -/
def handle_request_join (pawns : List String) (s : ServerState)
    (ws : Nat) (username lobby_code : String) : Option Outcome :=
  if username = "" then
    some ⟨s, [], some (Msg.ERROR 400 "Username is required")⟩
  else if lobby_code = "" then
    some ⟨s, [], some (Msg.ERROR 400 "Lobby code is required")⟩
  else
    match dget s.lobbies lobby_code with
    | none => some ⟨s, [], some (Msg.ERROR 404 "Lobby not found")⟩
    | some lb =>
        if lb.started then
          some ⟨s, [], some (Msg.ERROR 403 "Game already started")⟩
        else if lb.players.any (fun p => p.2.username == username) then
          some ⟨s, [], some (Msg.ERROR 409 "Username already taken")⟩
        else
          match get_available_pawn pawns lb with
          | none => some ⟨s, [], some (Msg.ERROR 403 "Lobby is full")⟩
          | some pawn =>
              let pl : Player :=
                { username := username, pawn := pawn, position := 0,
                  balance := STARTING_BALANCE, ownedProperties := [],
                  ownedPropertiesLevels := [], has_rolled := false }
              let lb' : Lobby :=
                { lb with players := dset lb.players ws pl,
                          player_order := lb.player_order ++ [ws] }
              let s' : ServerState :=
                { lobbies := dset s.lobbies lobby_code lb',
                  players := dset s.players ws ⟨lobby_code, username⟩ }
              let existing := lb'.players.map fun p => (p.2.username, p.2.pawn)
              some ⟨s', Event.send ws (Msg.JOIN_GAME existing) ::
                        broadcastEvents s'.lobbies lobby_code
                          (Msg.NEW_PLAYER username pawn) (some ws), none⟩

/-- `handle_game_end` (server.py:163). -/
def handle_game_end (s : ServerState) (ws : Nat) : Option Outcome :=
  match dget s.players ws with
  | none => some ⟨s, [], some (Msg.ERROR 403 "Not in a lobby")⟩
  | some pref =>
      match dget s.lobbies pref.lobby with
      | none => none
      | some lb =>
          if lb.host ≠ ws then
            some ⟨s, [], some (Msg.ERROR 403 "Only host can end the game")⟩
          else
            let evs := broadcastEvents s.lobbies pref.lobby
              (Msg.GAME_END_EVT "Host ended the game") none
            let players' := lb.players.foldl (fun acc p => derase acc p.1) s.players
            some ⟨{ lobbies := derase s.lobbies pref.lobby,
                    players := players' }, evs, none⟩

/-- Detailed owned-property list built in `handle_game_start`
(server.py:224-233); `none` models the IndexError on a bad board index. -/
def detailedProps (board : List Tile) (p : Player) :
    Option (List (Nat × String × String × Nat)) :=
  p.ownedProperties.mapM fun pid =>
    (board.get? pid).map fun t =>
      (t.id, t.name, t.color, (dget p.ownedPropertiesLevels pid).getD 0)

/-- `handle_game_start` (server.py:190).  Note: the source never checks
that the game is not already started, so a second GAME_START resets
`current_turn_index` to 0 mid-game. -/
def handle_game_start (board : List Tile) (s : ServerState) (ws : Nat) :
    Option Outcome :=
  match dget s.players ws with
  | none => some ⟨s, [], some (Msg.ERROR 403 "Not in a lobby")⟩
  | some pref =>
      match dget s.lobbies pref.lobby with
      | none => none
      | some lb =>
          if lb.host ≠ ws then
            some ⟨s, [], some (Msg.ERROR 403 "Only host can start the game")⟩
          else if lb.players.length < 2 then
            some ⟨s, [], some (Msg.ERROR 400 "Need at least 2 players to start")⟩
          else
            let lb' := { lb with started := true, current_turn_index := 0 }
            let s' := { s with lobbies := dset s.lobbies pref.lobby lb' }
            let evs1 := broadcastEvents s'.lobbies pref.lobby Msg.GAME_START_EVT none
            match lb'.player_order.get? 0 with
            | none => none
            | some fws =>
                match dget lb'.players fws with
                | none => none
                | some fp =>
                    let evs2 := broadcastEvents s'.lobbies pref.lobby
                      (Msg.NEXT_TURN fp.username) none
                    match lb'.players.mapM (fun q =>
                        (detailedProps board q.2).map fun dp =>
                          Event.send q.1 (Msg.PLAYER_DATA q.2.username q.2.balance dp)) with
                    | none => none
                    | some evs3 => some ⟨s', evs1 ++ evs2 ++ evs3, none⟩

/-- `handle_finish_turn` (server.py:247).  The raw
`player_order[current_turn_index]` index is modelled with `get?`; `none`
is the IndexError raised when the index is stale (it is never repaired
by the disconnect cleanup). -/
def handle_finish_turn (s : ServerState) (ws : Nat) : Option Outcome :=
  match dget s.players ws with
  | none => some ⟨s, [], some (Msg.ERROR 403 "Not in a lobby")⟩
  | some pref =>
      match dget s.lobbies pref.lobby with
      | none => none
      | some lb =>
          if ¬ lb.started then
            some ⟨s, [], some (Msg.ERROR 400 "Game not started")⟩
          else
            match lb.player_order.get? lb.current_turn_index with
            | none => none
            | some current_ws =>
                if current_ws ≠ ws then
                  some ⟨s, [], some (Msg.ERROR 403 "Not your turn")⟩
                else
                  match dget lb.players ws with
                  | none => none
                  | some p =>
                      let lb1 := { lb with
                        players := dset lb.players ws { p with has_rolled := false } }
                      let idx' := (lb1.current_turn_index + 1) % lb1.player_order.length
                      let lb2 := { lb1 with current_turn_index := idx' }
                      match lb2.player_order.get? idx' with
                      | none => none
                      | some next_ws =>
                          match dget lb2.players next_ws with
                          | none => none
                          | some np =>
                              let s' := { s with
                                lobbies := dset s.lobbies pref.lobby lb2 }
                              some ⟨s', broadcastEvents s'.lobbies pref.lobby
                                (Msg.NEXT_TURN np.username) none, none⟩

/-- Movement phase of `handle_request_roll` (server.py:300-320): mark
rolled, move mod 40, and on wrap credit 200 with a transaction event to
the mover. -/
def rollMovement (ws : Nat) (p : Player) (total : Nat) : Player × List Event :=
  let oldPos := p.position
  let newPos := (oldPos + total) % 40
  let p1 := { p with has_rolled := true, position := newPos }
  if newPos < oldPos then
    let p2 := { p1 with balance := p1.balance + 200 }
    (p2, [Event.send ws (Msg.TRANSACTION 200 p2.balance)])
  else (p1, [])

/-- The chance deck (server.py:389-395): message and signed amount. -/
def chanceCards : List (String × Int) :=
  [("Otrzymujesz zwrot podatku. Otrzymujesz 200$", 200),
   ("Wygrywasz w konkursie piękności. Otrzymujesz 100$", 100),
   ("Płacisz za naprawę ulicy. Zapłać 150$", -150),
   ("Idziesz na start. Otrzymujesz 200$", 200),
   ("Bank wypłaca ci dywidendę. Otrzymujesz 50$", 50)]

/-- The community-chest deck (server.py:417-423). -/
def communityCards : List (String × Int) :=
  [("Płacisz podatek. Zapłać 200$", -200),
   ("Otrzymujesz spadek. Otrzymujesz 100$", 100),
   ("Płacisz za ubezpieczenie. Zapłać 50$", -50),
   ("Wygrywasz drugą nagrodę w konkursie. Otrzymujesz 75$", 75),
   ("Otrzymujesz zwrot podatku dochodowego. Otrzymujesz 20$", 20)]

/-- Landed-tile resolution (server.py:331-462), acting on the lobby
after the movement phase; `cardIdx` is the random card draw.  The owner
scan is the first player (in dict insertion order) whose owned list
contains the landing position, as in the Python for-loop with break. -/
def resolveTile (board : List Tile) (ws : Nat) (lb : Lobby) (newPos : Nat)
    (cardIdx : Nat) : Option (Lobby × List Event) :=
  match board.get? newPos with
  | none => none
  | some tile =>
      match dget lb.players ws with
      | none => none
      | some player =>
          if tile.purchasable then
            match lb.players.find? (fun q => q.2.ownedProperties.contains newPos) with
            | none =>
                match tile.ownerCosts.get? 0 with
                | none => none
                | some price =>
                    some (lb, [Event.send ws (Msg.CHOICE
                      ("Buy " ++ tile.name ++ " for $" ++ toString price))])
            | some (owner_ws, owner) =>
                if owner_ws = ws then some (lb, [])
                else
                  let level := (dget owner.ownedPropertiesLevels newPos).getD 0
                  match tile.trespassCosts.get? level with
                  | none => none
                  | some rent =>
                      let p' := { player with balance := player.balance - rent }
                      let o' := { owner with balance := owner.balance + rent }
                      let lb' := { lb with
                        players := dset (dset lb.players ws p') owner_ws o' }
                      some (lb', [Event.send ws (Msg.TRANSACTION (-rent) p'.balance),
                                  Event.send owner_ws (Msg.TRANSACTION rent o'.balance)])
          else if tile.ty = "chance" then
            match chanceCards.get? cardIdx with
            | none => none
            | some card =>
                let p' := { player with balance := player.balance + card.2 }
                let lb' := { lb with players := dset lb.players ws p' }
                some (lb', [Event.send ws (Msg.TILE_MESSAGE "Szansa" card.1),
                            Event.send ws (Msg.TRANSACTION card.2 p'.balance)])
          else if tile.ty = "community chest" then
            match communityCards.get? cardIdx with
            | none => none
            | some card =>
                let p' := { player with balance := player.balance + card.2 }
                let lb' := { lb with players := dset lb.players ws p' }
                some (lb', [Event.send ws (Msg.TILE_MESSAGE "Kasa Społeczna" card.1),
                            Event.send ws (Msg.TRANSACTION card.2 p'.balance)])
          else if tile.ty = "penalty" then
            match tile.trespassCosts.get? 0 with
            | none => none
            | some penalty =>
                let p' := { player with balance := player.balance - penalty }
                let lb' := { lb with players := dset lb.players ws p' }
                some (lb', [Event.send ws (Msg.TILE_MESSAGE tile.name
                              ("Zapłać " ++ toString penalty ++ "$")),
                            Event.send ws (Msg.TRANSACTION (-penalty) p'.balance)])
          else some (lb, [])

/-- `handle_request_roll` (server.py:278); `d1`, `d2`, `cardIdx` are the
random draws. -/
def handle_request_roll (board : List Tile) (s : ServerState) (ws : Nat)
    (d1 d2 cardIdx : Nat) : Option Outcome :=
  match dget s.players ws with
  | none => some ⟨s, [], some (Msg.ERROR 403 "Not in a lobby")⟩
  | some pref =>
      match dget s.lobbies pref.lobby with
      | none => none
      | some lb =>
          if ¬ lb.started then
            some ⟨s, [], some (Msg.ERROR 400 "Game not started")⟩
          else
            match lb.player_order.get? lb.current_turn_index with
            | none => none
            | some current_ws =>
                if current_ws ≠ ws then
                  some ⟨s, [], some (Msg.ERROR 403 "Not your turn")⟩
                else
                  match dget lb.players ws with
                  | none => none
                  | some player =>
                      if player.has_rolled then
                        some ⟨s, [], some (Msg.ERROR 403 "Already rolled this turn")⟩
                      else
                        let total := d1 + d2
                        let moved := rollMovement ws player total
                        let newPos := (player.position + total) % 40
                        let lb1 := { lb with players := dset lb.players ws moved.1 }
                        let s1 := { s with lobbies := dset s.lobbies pref.lobby lb1 }
                        let posEvents := broadcastEvents s1.lobbies pref.lobby
                          (Msg.SET_POSITION moved.1.username newPos) none
                        match resolveTile board ws lb1 newPos cardIdx with
                        | none => none
                        | some (lb2, tileEvents) =>
                            let s2 := { s with
                              lobbies := dset s.lobbies pref.lobby lb2 }
                            some ⟨s2, moved.2 ++ posEvents ++ tileEvents, none⟩

/-- `handle_choice_response` (server.py:467).  Note the source performs
no started / turn / pending-prompt / already-owned check: any connection
that is in a lobby may send BUY for the tile at its current position.
The tile lookup happens before the label test, as in the source. -/
def handle_choice_response (board : List Tile) (s : ServerState) (ws : Nat)
    (label : String) : Option Outcome :=
  match dget s.players ws with
  | none => some ⟨s, [], some (Msg.ERROR 403 "Not in a lobby")⟩
  | some pref =>
      match dget s.lobbies pref.lobby with
      | none => none
      | some lb =>
          match dget lb.players ws with
          | none => none
          | some player =>
              match board.get? player.position with
              | none => none
              | some tile =>
                  if label = "BUY" then
                    match tile.ownerCosts.get? 0 with
                    | none => none
                    | some price =>
                        if player.balance ≥ price then
                          let p' := { player with
                            balance := player.balance - price,
                            ownedProperties := player.ownedProperties ++ [player.position],
                            ownedPropertiesLevels :=
                              dset player.ownedPropertiesLevels player.position 0 }
                          let lb' := { lb with players := dset lb.players ws p' }
                          let s' := { s with
                            lobbies := dset s.lobbies pref.lobby lb' }
                          some ⟨s', [Event.send ws (Msg.TRANSACTION (-price) p'.balance),
                                     Event.send ws (Msg.PROPERTY_TRANSFER
                                       tile.id tile.name tile.color 0)], none⟩
                        else
                          some ⟨s, [], some (Msg.ERROR 400 "Insufficient funds")⟩
                  else some ⟨s, [], none⟩

/-- `handle_request_upgrade` (server.py:516).  `propertyId` is the `id`
field of the request (`none` = missing).  The monopoly check is the
source's length comparison between the player's owned entries of the
tile's color (with multiplicity) and the board's purchasable tiles of
that color. -/
def handle_request_upgrade (board : List Tile) (s : ServerState) (ws : Nat)
    (propertyId : Option Nat) : Option Outcome :=
  match dget s.players ws with
  | none => some ⟨s, [], some (Msg.ERROR 403 "Not in a lobby")⟩
  | some pref =>
      match dget s.lobbies pref.lobby with
      | none => none
      | some lb =>
          match dget lb.players ws with
          | none => none
          | some player =>
              match propertyId with
              | none => some ⟨s, [], some (Msg.ERROR 400 "Property ID required")⟩
              | some pid =>
                  if ¬ player.ownedProperties.contains pid then
                    some ⟨s, [], some (Msg.ERROR 403 "You don't own this property")⟩
                  else
                    match board.get? pid with
                    | none => none
                    | some tile =>
                        if ¬ tile.levelable then
                          some ⟨s, [], some (Msg.ERROR 400 "This property cannot be upgraded")⟩
                        else
                          let allOfColor := board.filter fun t =>
                            t.color == tile.color && t.purchasable
                          match player.ownedProperties.mapM
                              (fun q => (board.get? q).map Tile.color) with
                          | none => none
                          | some ownedColors =>
                              let ownedOfColor :=
                                ownedColors.filter (fun c => c == tile.color)
                              if ownedOfColor.length < allOfColor.length then
                                some ⟨s, [], some (Msg.ERROR 403
                                  "You must own all properties of this color to upgrade")⟩
                              else
                                let current_level :=
                                  (dget player.ownedPropertiesLevels pid).getD 0
                                if current_level ≥ 5 then
                                  some ⟨s, [], some (Msg.ERROR 400
                                    "Property is already at max level")⟩
                                else
                                  let next_level := current_level + 1
                                  match tile.ownerCosts.get? next_level with
                                  | none => none
                                  | some upgrade_cost =>
                                      if player.balance < upgrade_cost then
                                        some ⟨s, [], some (Msg.ERROR 400 "Insufficient funds")⟩
                                      else
                                        let p' := { player with
                                          balance := player.balance - upgrade_cost,
                                          ownedPropertiesLevels :=
                                            dset player.ownedPropertiesLevels pid next_level }
                                        let lb' := { lb with
                                          players := dset lb.players ws p' }
                                        let s' := { s with
                                          lobbies := dset s.lobbies pref.lobby lb' }
                                        some ⟨s',
                                          [Event.send ws (Msg.TRANSACTION
                                             (-upgrade_cost) p'.balance),
                                           Event.send ws (Msg.PROPERTY_UPGRADE
                                             pid next_level)], none⟩

/-- The `finally` cleanup in `handle_message` (server.py:633-644): remove
the connection from its lobby's player map and order, delete the lobby
when empty, and drop the global player entry.  `current_turn_index` is
left untouched. -/
def disconnectCleanup (s : ServerState) (ws : Nat) : ServerState :=
  match dget s.players ws with
  | none => s
  | some pref =>
      let s1 :=
        match dget s.lobbies pref.lobby with
        | none => s
        | some lb =>
            let lb' := { lb with players := derase lb.players ws,
                                 player_order := removeFirst lb.player_order ws }
            if lb'.players.isEmpty then
              { s with lobbies := derase s.lobbies pref.lobby }
            else
              { s with lobbies := dset s.lobbies pref.lobby lb' }
      { s1 with players := derase s1.players ws }

/-- One inbound request, with all randomness made explicit. -/
inductive Request where
  | GAME_CREATE (ws : Nat) (username code : String)
  | REQUEST_JOIN (ws : Nat) (username lobby_code : String)
  | GAME_START (ws : Nat)
  | FINISH_TURN (ws : Nat)
  | REQUEST_ROLL (ws d1 d2 cardIdx : Nat)
  | CHOICE_RESPONSE (ws : Nat) (label : String)
  | REQUEST_UPGRADE (ws : Nat) (propertyId : Option Nat)
  | GAME_END (ws : Nat)
  | DISCONNECT (ws : Nat)
  deriving DecidableEq, Repr

/-- The dispatch loop of `handle_message` plus the ranges the random
draws actually take: `generate_lobby_code` only ever yields an unused
code, `random.randint(1,6)` yields 1..6, `random.choice` over the
five-card decks yields an index below 5. -/
def step (board : List Tile) (pawns : List String) (s : ServerState) :
    Request → Option Outcome
  | .GAME_CREATE ws u code =>
      if dhas s.lobbies code then none else handle_game_create pawns s ws u code
  | .REQUEST_JOIN ws u code => handle_request_join pawns s ws u code
  | .GAME_START ws => handle_game_start board s ws
  | .FINISH_TURN ws => handle_finish_turn s ws
  | .REQUEST_ROLL ws d1 d2 c =>
      if 1 ≤ d1 ∧ d1 ≤ 6 ∧ 1 ≤ d2 ∧ d2 ≤ 6 ∧ c < 5 then
        handle_request_roll board s ws d1 d2 c
      else none
  | .CHOICE_RESPONSE ws label => handle_choice_response board s ws label
  | .REQUEST_UPGRADE ws pid => handle_request_upgrade board s ws pid
  | .GAME_END ws => handle_game_end s ws
  | .DISCONNECT ws => some ⟨disconnectCleanup s ws, [], none⟩

def runTrace (board : List Tile) (pawns : List String) :
    ServerState → List Request → Option ServerState
  | s, [] => some s
  | s, r :: rs =>
      match step board pawns s r with
      | none => none
      | some o => runTrace board pawns o.state rs

/-- A lobby state is reachable when some sequence of handled requests
produces it from the empty registries. -/
def Reachable (board : List Tile) (pawns : List String) (s : ServerState) : Prop :=
  ∃ tr : List Request, runTrace board pawns initState tr = some s

/-! ### Concrete fixtures for counterexamples and witnesses
The board catalog is external data (loaded from the shared directory at
startup), so concrete instantiations below pick a catalog that matches
the documented tile shape: 40 tiles, a "brown" colour group of two
purchasable levelable tiles at positions 1 and 3. -/

def plainTile (i : Nat) : Tile :=
  { id := i, name := "Tile" ++ toString i, color := "none", ty := "other",
    purchasable := false, levelable := false,
    ownerCosts := [], trespassCosts := [] }

def brownTile (i : Nat) : Tile :=
  { id := i, name := "Brown" ++ toString i, color := "brown", ty := "property",
    purchasable := true, levelable := true,
    ownerCosts := [60, 50, 50, 50, 50, 50],
    trespassCosts := [2, 10, 30, 90, 160, 250] }

def testBoard : List Tile :=
  (List.range 40).map fun i => if i = 1 ∨ i = 3 then brownTile i else plainTile i

def testPawns : List String := ["car", "hat", "dog", "ship"]

/-- Create a two-player lobby "LOBBY1" (host ws 0, joiner ws 1) and
start the game. -/
def baseTrace : List Request :=
  [Request.GAME_CREATE 0 "A" "LOBBY1",
   Request.REQUEST_JOIN 1 "B" "LOBBY1",
   Request.GAME_START 0]

/-- Host rolls 1+2, lands on the purchasable tile 3, and buys it. -/
def buyTrace : List Request :=
  baseTrace ++ [Request.REQUEST_ROLL 0 1 2 0, Request.CHOICE_RESPONSE 0 "BUY"]

/-- The host repeats BUY while still standing on tile 3. -/
def c1trace : List Request := buyTrace ++ [Request.CHOICE_RESPONSE 0 "BUY"]

/-- After the host buys tile 3, the joiner lands on it (paying rent) and
also sends BUY for it. -/
def c1crossTrace : List Request :=
  buyTrace ++ [Request.FINISH_TURN 0, Request.REQUEST_ROLL 1 1 2 0,
               Request.CHOICE_RESPONSE 1 "BUY"]

/-- The host re-buys tile 3 until the balance reaches 0
(1500 - 25 * 60 = 0). -/
def c3trace : List Request :=
  buyTrace ++ List.replicate 24 (Request.CHOICE_RESPONSE 0 "BUY")

/-- Double-buy of tile 3, then an upgrade request for it: the length
comparison sees two owned "brown" entries against the two purchasable
brown board tiles, although tile 1 is unowned. -/
def c4trace : List Request :=
  buyTrace ++ [Request.CHOICE_RESPONSE 0 "BUY", Request.REQUEST_UPGRADE 0 (some 3)]

/-- Same as `c4trace`; the upgrade leaves tile 3 at level 1. -/
def c5trace : List Request := c4trace

/-- The joiner rolls on their turn, then the host re-sends GAME_START
(never rejected mid-game), resetting the turn pointer to the host. -/
def c7trace : List Request :=
  baseTrace ++ [Request.FINISH_TURN 0, Request.REQUEST_ROLL 1 1 2 0,
                Request.GAME_START 0]

/-- Three players, two turn advances (index 2), then the host
disconnects: the order shrinks to two entries but the index stays 2. -/
def c9trace : List Request :=
  [Request.GAME_CREATE 0 "A" "LOBBY1",
   Request.REQUEST_JOIN 1 "B" "LOBBY1",
   Request.REQUEST_JOIN 2 "C" "LOBBY1",
   Request.GAME_START 0,
   Request.FINISH_TURN 0,
   Request.FINISH_TURN 1,
   Request.DISCONNECT 0]

/-- Four joiners exhaust the four-pawn catalog before the game starts. -/
def fullTrace : List Request :=
  [Request.GAME_CREATE 0 "A" "LOBBY1",
   Request.REQUEST_JOIN 1 "B" "LOBBY1",
   Request.REQUEST_JOIN 2 "C" "LOBBY1",
   Request.REQUEST_JOIN 3 "D" "LOBBY1"]

def defaultLobby : Lobby :=
  { players := [], host := 0, started := false,
    current_turn_index := 0, player_order := [] }

def defaultPlayer : Player :=
  { username := "", pawn := "", position := 0, balance := 0,
    ownedProperties := [], ownedPropertiesLevels := [], has_rolled := false }

/-- The state reached by a trace on the test fixtures. -/
def stateAfter (tr : List Request) : ServerState :=
  (runTrace testBoard testPawns initState tr).getD initState

def lobbyIn (s : ServerState) : Lobby :=
  (dget s.lobbies "LOBBY1").getD defaultLobby

def playerIn (s : ServerState) (ws : Nat) : Player :=
  (dget (lobbyIn s).players ws).getD defaultPlayer

def baseState : ServerState := stateAfter baseTrace

/-- Two players in the lobby, game not yet started. -/
def pairState : ServerState :=
  stateAfter [Request.GAME_CREATE 0 "A" "LOBBY1", Request.REQUEST_JOIN 1 "B" "LOBBY1"]
def buyState : ServerState := stateAfter buyTrace
def c3state : ServerState := stateAfter c3trace
def c5state : ServerState := stateAfter c5trace
def fullState : ServerState := stateAfter fullTrace

/-- The level a lobby state records for player `ws` on tile `pid`. -/
def recordedLevel (s : ServerState) (code : String) (ws pid : Nat) : Option Nat :=
  (dget s.lobbies code).bind fun lb =>
    (dget lb.players ws).bind fun p => dget p.ownedPropertiesLevels pid

/-- The outcome of a successful BUY, as built by the success branch of
`handle_choice_response`: price debited, position appended to the owned
list, level reset to 0, transaction and property-transfer events to the
buyer. -/
def buyOutcome (s : ServerState) (code : String) (lb : Lobby) (ws : Nat)
    (player : Player) (tile : Tile) (price : Int) : Outcome :=
  let p' : Player :=
    { player with
      balance := player.balance - price,
      ownedProperties := player.ownedProperties ++ [player.position],
      ownedPropertiesLevels := dset player.ownedPropertiesLevels player.position 0 }
  let lb' : Lobby := { lb with players := dset lb.players ws p' }
  { state := { s with lobbies := dset s.lobbies code lb' },
    events := [Event.send ws (Msg.TRANSACTION (-price) p'.balance),
               Event.send ws (Msg.PROPERTY_TRANSFER tile.id tile.name tile.color 0)],
    reply := none }

/-- The lobby after the movement phase of a roll, before tile
resolution. -/
def movedLobby (lb : Lobby) (ws : Nat) (player : Player) (total : Nat) : Lobby :=
  { lb with players := dset lb.players ws (rollMovement ws player total).1 }

/-- The state after the success branch of `handle_request_upgrade`:
cost debited and the recorded level bumped to `current + 1`. -/
def upgradeState (s : ServerState) (code : String) (lb : Lobby) (ws : Nat)
    (player : Player) (pid : Nat) (cost : Int) : ServerState :=
  let p' : Player :=
    { player with
      balance := player.balance - cost,
      ownedPropertiesLevels := dset player.ownedPropertiesLevels pid
        ((dget player.ownedPropertiesLevels pid).getD 0 + 1) }
  { s with lobbies := dset s.lobbies code ({ lb with players := dset lb.players ws p' }) }

/-- The lobby after the success branch of `handle_finish_turn`:
`has_rolled` cleared for the finishing player and the turn index
advanced modulo the order length. -/
def advancedLobby (lb : Lobby) (ws : Nat) (p : Player) : Lobby :=
  let lb1 : Lobby :=
    { lb with players := dset lb.players ws ({ p with has_rolled := false }) }
  { lb1 with current_turn_index := (lb1.current_turn_index + 1) % lb1.player_order.length }

/-- The global state after the success branch of `handle_finish_turn`. -/
def advancedState (s : ServerState) (code : String) (lb : Lobby)
    (ws : Nat) (p : Player) : ServerState :=
  { s with lobbies := dset s.lobbies code (advancedLobby lb ws p) }

/-! ### The level-bounds invariant -/

/-- Every recorded level in a levels dict is at most 5. -/
def LevelsOK (ls : List (Nat × Nat)) : Prop := ∀ e ∈ ls, e.2 ≤ 5

def PlayerOK (p : Player) : Prop := LevelsOK p.ownedPropertiesLevels

def LobbyOK (lb : Lobby) : Prop := ∀ e ∈ lb.players, PlayerOK e.2

def StateOK (s : ServerState) : Prop := ∀ e ∈ s.lobbies, LobbyOK e.2

theorem mem_dset {κ α : Type} [DecidableEq κ] {l : List (κ × α)} {k : κ}
    {v : α} {e : κ × α} (h : e ∈ dset l k v) : e ∈ l ∨ e = (k, v) := by
  induction l with
  | nil => simp [dset] at h; simp [h]
  | cons hd tl ih =>
      obtain ⟨k0, v0⟩ := hd
      by_cases h0 : k0 = k
      · simp only [dset, if_pos h0] at h
        rcases List.mem_cons.mp h with h1 | h1
        · right; exact h1
        · left; exact List.mem_cons_of_mem _ h1
      · simp only [dset, if_neg h0] at h
        rcases List.mem_cons.mp h with h1 | h1
        · left; simp [h1]
        · rcases ih h1 with h2 | h2
          · left; exact List.mem_cons_of_mem _ h2
          · right; exact h2

theorem mem_derase {κ α : Type} [DecidableEq κ] {l : List (κ × α)} {k : κ}
    {e : κ × α} (h : e ∈ derase l k) : e ∈ l := by
  induction l with
  | nil => simp [derase] at h
  | cons hd tl ih =>
      obtain ⟨k0, v0⟩ := hd
      by_cases h0 : k0 = k
      · simp only [derase, if_pos h0] at h
        exact List.mem_cons_of_mem _ h
      · simp only [derase, if_neg h0] at h
        rcases List.mem_cons.mp h with h1 | h1
        · simp [h1]
        · exact List.mem_cons_of_mem _ (ih h1)

theorem dget_mem {κ α : Type} [DecidableEq κ] {l : List (κ × α)} {k : κ}
    {v : α} (h : dget l k = some v) : (k, v) ∈ l := by
  induction l with
  | nil => simp [dget] at h
  | cons hd tl ih =>
      obtain ⟨k0, v0⟩ := hd
      by_cases h0 : k0 = k
      · subst h0
        simp only [dget, if_pos rfl] at h
        cases h
        exact List.mem_cons_self _ _
      · simp only [dget, if_neg h0] at h
        exact List.mem_cons_of_mem _ (ih h)

theorem forall_mem_dset {κ α : Type} [DecidableEq κ] {P : α → Prop}
    {l : List (κ × α)} {k : κ} {v : α}
    (h : ∀ e ∈ l, P e.2) (hv : P v) : ∀ e ∈ dset l k v, P e.2 := by
  intro e he
  rcases mem_dset he with h1 | h1
  · exact h e h1
  · rw [h1]; exact hv

theorem forall_mem_derase {κ α : Type} [DecidableEq κ] {P : α → Prop}
    {l : List (κ × α)} {k : κ}
    (h : ∀ e ∈ l, P e.2) : ∀ e ∈ derase l k, P e.2 :=
  fun e he => h e (mem_derase he)

theorem levelsOK_dset {ls : List (Nat × Nat)} {pid v : Nat}
    (h : LevelsOK ls) (hv : v ≤ 5) : LevelsOK (dset ls pid v) := by
  intro e he
  rcases mem_dset he with h1 | h1
  · exact h e h1
  · rw [h1]; exact hv

theorem stateOK_set_lobby {s : ServerState} {code : String} {lb : Lobby}
    {pls : List (Nat × PlayerRef)}
    (hOK : StateOK s) (hlb : LobbyOK lb) :
    StateOK { lobbies := dset s.lobbies code lb, players := pls } := by
  intro e he
  rcases mem_dset he with h1 | h1
  · exact hOK e h1
  · rw [h1]; exact hlb

theorem lobbyOK_set_player {lb : Lobby} {ws : Nat} {p : Player}
    {host : Nat} {started : Bool} {idx : Nat} {order : List Nat}
    (hlb : LobbyOK lb) (hp : PlayerOK p) :
    LobbyOK { players := dset lb.players ws p, host := host,
              started := started, current_turn_index := idx,
              player_order := order } := by
  intro e he
  rcases mem_dset he with h1 | h1
  · exact hlb e h1
  · rw [h1]; exact hp

theorem choice_preserves_levels {board : List Tile} {s : ServerState}
    {ws : Nat} {label : String} {o : Outcome}
    (h : handle_choice_response board s ws label = some o)
    (hOK : StateOK s) : StateOK o.state := by
  unfold handle_choice_response at h
  split at h
  · injection h with h; subst h; exact hOK
  · rename_i pref hpref
    split at h
    · cases h
    · rename_i lb hlb
      split at h
      · cases h
      · rename_i player hplayer
        split at h
        · cases h
        · rename_i tile htile
          split at h
          · split at h
            · cases h
            · rename_i price hprice
              split at h
              · injection h with h; subst h
                have hlbOK : LobbyOK lb := hOK _ (dget_mem hlb)
                have hpOK : PlayerOK player := hlbOK _ (dget_mem hplayer)
                exact stateOK_set_lobby hOK
                  (lobbyOK_set_player hlbOK (levelsOK_dset hpOK (by norm_num)))
              · injection h with h; subst h; exact hOK
          · injection h with h; subst h; exact hOK

theorem create_preserves_levels {pawns : List String} {s : ServerState}
    {ws : Nat} {u code : String} {o : Outcome}
    (h : handle_game_create pawns s ws u code = some o)
    (hOK : StateOK s) : StateOK o.state := by
  unfold handle_game_create at h
  split at h
  · injection h with h; subst h; exact hOK
  · split at h
    · cases h
    · injection h with h; subst h
      refine stateOK_set_lobby hOK ?_
      intro e he
      simp only [List.mem_singleton] at he
      rw [he]
      intro e' he'
      simp at he'

theorem join_preserves_levels {pawns : List String} {s : ServerState}
    {ws : Nat} {u code : String} {o : Outcome}
    (h : handle_request_join pawns s ws u code = some o)
    (hOK : StateOK s) : StateOK o.state := by
  unfold handle_request_join at h
  split at h
  · injection h with h; subst h; exact hOK
  · split at h
    · injection h with h; subst h; exact hOK
    · split at h
      · injection h with h; subst h; exact hOK
      · rename_i lb hlb
        split at h
        · injection h with h; subst h; exact hOK
        · split at h
          · injection h with h; subst h; exact hOK
          · split at h
            · injection h with h; subst h; exact hOK
            · injection h with h; subst h
              have hlbOK : LobbyOK lb := hOK _ (dget_mem hlb)
              refine stateOK_set_lobby hOK ?_
              refine lobbyOK_set_player hlbOK ?_
              intro e' he'
              simp at he'

theorem start_preserves_levels {board : List Tile} {s : ServerState}
    {ws : Nat} {o : Outcome}
    (h : handle_game_start board s ws = some o)
    (hOK : StateOK s) : StateOK o.state := by
  unfold handle_game_start at h
  split at h
  · injection h with h; subst h; exact hOK
  · rename_i pref hpref
    split at h
    · cases h
    · rename_i lb hlb
      split at h
      · injection h with h; subst h; exact hOK
      · split at h
        · injection h with h; subst h; exact hOK
        · simp only [] at h
          split at h
          · cases h
          · split at h
            · cases h
            · split at h
              · cases h
              · injection h with h; subst h
                have hlbOK : LobbyOK lb := hOK _ (dget_mem hlb)
                refine stateOK_set_lobby hOK ?_
                intro e he
                exact hlbOK e he

theorem finish_preserves_levels {s : ServerState} {ws : Nat} {o : Outcome}
    (h : handle_finish_turn s ws = some o)
    (hOK : StateOK s) : StateOK o.state := by
  unfold handle_finish_turn at h
  split at h
  · injection h with h; subst h; exact hOK
  · rename_i pref hpref
    split at h
    · cases h
    · rename_i lb hlb
      split at h
      · injection h with h; subst h; exact hOK
      · split at h
        · cases h
        · split at h
          · injection h with h; subst h; exact hOK
          · split at h
            · cases h
            · rename_i p hp
              simp only [] at h
              split at h
              · cases h
              · split at h
                · cases h
                · injection h with h; subst h
                  have hlbOK : LobbyOK lb := hOK _ (dget_mem hlb)
                  have hpOK : PlayerOK p := hlbOK _ (dget_mem hp)
                  exact stateOK_set_lobby hOK (lobbyOK_set_player hlbOK hpOK)

theorem rollMovement_levels (ws : Nat) (p : Player) (t : Nat) :
    ((rollMovement ws p t).1).ownedPropertiesLevels = p.ownedPropertiesLevels := by
  by_cases hc : (p.position + t) % 40 < p.position <;> simp [rollMovement, hc]

theorem resolve_preserves_levels {board : List Tile} {ws : Nat} {lb : Lobby}
    {newPos cardIdx : Nat} {res : Lobby × List Event}
    (h : resolveTile board ws lb newPos cardIdx = some res)
    (hlbOK : LobbyOK lb) : LobbyOK res.1 := by
  unfold resolveTile at h
  split at h
  · cases h
  · split at h
    · cases h
    · rename_i player hplayer
      have hpOK : PlayerOK player := hlbOK _ (dget_mem hplayer)
      split at h
      · split at h
        · split at h
          · cases h
          · injection h with h; subst h; exact hlbOK
        · rename_i owner_ws owner hq
          have hoOK : PlayerOK owner :=
            hlbOK _ (List.mem_of_find?_eq_some hq)
          split at h
          · injection h with h; subst h; exact hlbOK
          · simp only [] at h
            split at h
            · cases h
            · injection h with h; subst h
              intro e he
              rcases mem_dset he with h1 | h1
              · rcases mem_dset h1 with h2 | h2
                · exact hlbOK e h2
                · rw [h2]; exact hpOK
              · rw [h1]; exact hoOK
      · split at h
        · split at h
          · cases h
          · injection h with h; subst h
            intro e he
            rcases mem_dset he with h1 | h1
            · exact hlbOK e h1
            · rw [h1]; exact hpOK
        · split at h
          · split at h
            · cases h
            · injection h with h; subst h
              intro e he
              rcases mem_dset he with h1 | h1
              · exact hlbOK e h1
              · rw [h1]; exact hpOK
          · split at h
            · split at h
              · cases h
              · injection h with h; subst h
                intro e he
                rcases mem_dset he with h1 | h1
                · exact hlbOK e h1
                · rw [h1]; exact hpOK
            · injection h with h; subst h; exact hlbOK

theorem roll_preserves_levels {board : List Tile} {s : ServerState}
    {ws d1 d2 cardIdx : Nat} {o : Outcome}
    (h : handle_request_roll board s ws d1 d2 cardIdx = some o)
    (hOK : StateOK s) : StateOK o.state := by
  unfold handle_request_roll at h
  split at h
  · injection h with h; subst h; exact hOK
  · rename_i pref hpref
    split at h
    · cases h
    · rename_i lb hlb
      split at h
      · injection h with h; subst h; exact hOK
      · split at h
        · cases h
        · split at h
          · injection h with h; subst h; exact hOK
          · split at h
            · cases h
            · rename_i player hplayer
              split at h
              · injection h with h; subst h; exact hOK
              · simp only [] at h
                split at h
                · cases h
                · rename_i res hres
                  injection h with h; subst h
                  have hlbOK : LobbyOK lb := hOK _ (dget_mem hlb)
                  have hpOK : PlayerOK player := hlbOK _ (dget_mem hplayer)
                  have hlb1OK : LobbyOK { lb with
                      players := dset lb.players ws
                        (rollMovement ws player (d1 + d2)).1 } := by
                    refine lobbyOK_set_player hlbOK ?_
                    show LevelsOK _
                    rw [rollMovement_levels]
                    exact hpOK
                  exact stateOK_set_lobby hOK
                    (resolve_preserves_levels hres hlb1OK)

theorem upgrade_preserves_levels {board : List Tile} {s : ServerState}
    {ws : Nat} {propertyId : Option Nat} {o : Outcome}
    (h : handle_request_upgrade board s ws propertyId = some o)
    (hOK : StateOK s) : StateOK o.state := by
  unfold handle_request_upgrade at h
  split at h
  · injection h with h; subst h; exact hOK
  · rename_i pref hpref
    split at h
    · cases h
    · rename_i lb hlb
      split at h
      · cases h
      · rename_i player hplayer
        split at h
        · injection h with h; subst h; exact hOK
        · rename_i pid
          split at h
          · injection h with h; subst h; exact hOK
          · split at h
            · cases h
            · rename_i tile htile
              split at h
              · injection h with h; subst h; exact hOK
              · split at h
                · cases h
                · simp only [] at h
                  split at h
                  · injection h with h; subst h; exact hOK
                  · split at h
                    · injection h with h; subst h; exact hOK
                    · rename_i hlevel
                      split at h
                      · cases h
                      · split at h
                        · injection h with h; subst h; exact hOK
                        · injection h with h; subst h
                          have hlbOK : LobbyOK lb := hOK _ (dget_mem hlb)
                          have hpOK : PlayerOK player := hlbOK _ (dget_mem hplayer)
                          refine stateOK_set_lobby hOK
                            (lobbyOK_set_player hlbOK
                              (levelsOK_dset hpOK ?_))
                          omega

theorem end_preserves_levels {s : ServerState} {ws : Nat} {o : Outcome}
    (h : handle_game_end s ws = some o)
    (hOK : StateOK s) : StateOK o.state := by
  unfold handle_game_end at h
  split at h
  · injection h with h; subst h; exact hOK
  · split at h
    · cases h
    · split at h
      · injection h with h; subst h; exact hOK
      · injection h with h; subst h
        intro e he
        exact hOK e (mem_derase he)

theorem disconnect_preserves_levels (s : ServerState) (ws : Nat)
    (hOK : StateOK s) : StateOK (disconnectCleanup s ws) := by
  unfold disconnectCleanup
  split
  · exact hOK
  · rename_i pref hpref
    split
    · intro e he; exact hOK e he
    · rename_i lb hlb
      have hlbOK : LobbyOK lb := hOK _ (dget_mem hlb)
      simp only []
      split
      · intro e he
        exact hOK e (mem_derase he)
      · intro e he
        rcases mem_dset he with h1 | h1
        · exact hOK e h1
        · rw [h1]
          intro e' he'
          exact hlbOK e' (mem_derase he')

theorem step_preserves_levels {board : List Tile} {pawns : List String}
    {s : ServerState} {r : Request} {o : Outcome}
    (h : step board pawns s r = some o)
    (hOK : StateOK s) : StateOK o.state := by
  cases r with
  | GAME_CREATE ws u code =>
      simp only [step] at h
      split at h
      · cases h
      · exact create_preserves_levels h hOK
  | REQUEST_JOIN ws u code =>
      simp only [step] at h
      exact join_preserves_levels h hOK
  | GAME_START ws =>
      simp only [step] at h
      exact start_preserves_levels h hOK
  | FINISH_TURN ws =>
      simp only [step] at h
      exact finish_preserves_levels h hOK
  | REQUEST_ROLL ws d1 d2 c =>
      simp only [step] at h
      split at h
      · exact roll_preserves_levels h hOK
      · cases h
  | CHOICE_RESPONSE ws label =>
      simp only [step] at h
      exact choice_preserves_levels h hOK
  | REQUEST_UPGRADE ws pid =>
      simp only [step] at h
      exact upgrade_preserves_levels h hOK
  | GAME_END ws =>
      simp only [step] at h
      exact end_preserves_levels h hOK
  | DISCONNECT ws =>
      simp only [step] at h
      injection h with h; subst h
      exact disconnect_preserves_levels s ws hOK

theorem runTrace_preserves_levels {board : List Tile} {pawns : List String} :
    ∀ (tr : List Request) (s s' : ServerState),
      runTrace board pawns s tr = some s' → StateOK s → StateOK s' := by
  intro tr
  induction tr with
  | nil =>
      intro s s' h hOK
      simp only [runTrace] at h
      cases h
      exact hOK
  | cons r rs ih =>
      intro s s' h hOK
      simp only [runTrace] at h
      split at h
      · cases h
      · rename_i o ho
        exact ih o.state s' h (step_preserves_levels ho hOK)

theorem reachable_levels_bounded {board : List Tile} {pawns : List String}
    {s : ServerState} (h : Reachable board pawns s) : StateOK s := by
  obtain ⟨tr, htr⟩ := h
  refine runTrace_preserves_levels tr initState s htr ?_
  intro e he
  simp [initState] at he

/-! ### Claim theorems -/

/-- Claim C1.  Global exclusivity of property ownership is violated by
the code: `handle_choice_response` re-validates nothing, so after the
reachable trace `c1trace` (a repeated BUY from the prompted buyer) tile 3
appears twice in player 0's owned list, and after `c1crossTrace` tile 3
is simultaneously in player 0's and player 1's owned lists.  The spec
states the invariant as intent ("every state transition must be
validated ... server-side"); the missing re-check in the BUY handler is
the slip. -/
theorem c1_exclusivity_violated :
    ((runTrace testBoard testPawns initState c1trace).bind fun s =>
        (dget s.lobbies "LOBBY1").bind fun lb =>
          (dget lb.players 0).map fun p => p.ownedProperties.count 3)
      = some 2 ∧
    ((runTrace testBoard testPawns initState c1crossTrace).bind fun s =>
        (dget s.lobbies "LOBBY1").map fun lb =>
          ((dget lb.players 0).map fun p => p.ownedProperties.contains 3,
           (dget lb.players 1).map fun p => p.ownedProperties.contains 3))
      = some (some true, some true) := by
  constructor <;> rfl

/-- Claim C9.  After the reachable trace `c9trace` (three players, two
turn advances, then the host disconnects) the lobby is started with
`current_turn_index = 2` but only two entries left in `player_order`:
the index is out of bounds, and both FINISH_TURN and REQUEST_ROLL from a
remaining player crash on the raw `player_order[current_turn_index]`
lookup (modelled as `none`) instead of designating a current player. -/
theorem c9_stale_turn_index :
    ((runTrace testBoard testPawns initState c9trace).bind fun s =>
        (dget s.lobbies "LOBBY1").map fun lb =>
          (lb.current_turn_index, lb.player_order.length,
           lb.started,
           (step testBoard testPawns s (Request.FINISH_TURN 1)).isNone,
           (step testBoard testPawns s (Request.REQUEST_ROLL 1 1 2 0)).isNone))
      = some (2, 2, true, true, true) := by
  rfl

/-- Claim C5, counterexample.  The recorded level of tile 3 is 1 after
`c5trace` (buy, buy, upgrade), and drops back to 0 after one further
handled BUY from the same player standing on the owned tile: a handled
operation does decrease a recorded level. -/
theorem c5_counterexample :
    ((runTrace testBoard testPawns initState c5trace).bind fun s =>
        recordedLevel s "LOBBY1" 0 3) = some 1 ∧
    ((runTrace testBoard testPawns initState
          (c5trace ++ [Request.CHOICE_RESPONSE 0 "BUY"])).bind fun s =>
        recordedLevel s "LOBBY1" 0 3) = some 0 := by
  constructor <;> rfl

/-- Claim C5 (amended).  In every reachable lobby state every recorded
property level lies in [0,5] (levels are naturals, so the lower bound is
inherent); the upgrade path only ever raises a level by exactly 1 and is
rejected at level 5; but a repeated BUY on an already-owned tile resets
its recorded level to 0, which can decrease it. -/
theorem c5_levels_bounded {board : List Tile} {pawns : List String}
    {s : ServerState} (h : Reachable board pawns s) :
    ∀ code lb, dget s.lobbies code = some lb →
      ∀ ws p, dget lb.players ws = some p →
        ∀ pid l, dget p.ownedPropertiesLevels pid = some l → l ≤ 5 := by
  intro code lb hlb ws p hp pid l hl
  exact reachable_levels_bounded h _ (dget_mem hlb) _ (dget_mem hp) _ (dget_mem hl)

/-- Witness for `c5_levels_bounded` at the concrete reachable state
after `c5trace`, where player 0 records tile 3 at level 1. -/
theorem c5_levels_bounded_witness : (1 : Nat) ≤ 5 :=
  @c5_levels_bounded testBoard testPawns c5state
    ⟨c5trace, rfl⟩ "LOBBY1" (lobbyIn c5state) rfl 0 (playerIn c5state 0) rfl 3 1 rfl

/-- Claim C10.  A CHOICE_RESPONSE with label BUY from any connection that
is in a lobby succeeds whenever the balance covers `owner-costs[0]` of
the tile at the caller's current position: the lobby's `started` flag,
turn index, pending prompts and existing ownership are all unconstrained
by the hypotheses.  The price is debited, the position appended to the
owned list (the count clause shows each repetition appends a duplicate),
the level reset to 0, and a transaction plus property-transfer event are
sent to the requester. -/
theorem c10_buy_unchecked {board : List Tile} {s : ServerState} {ws : Nat}
    {pref : PlayerRef} {lb : Lobby} {player : Player} {tile : Tile} {price : Int}
    (hpref : dget s.players ws = some pref)
    (hlb : dget s.lobbies pref.lobby = some lb)
    (hplayer : dget lb.players ws = some player)
    (htile : board.get? player.position = some tile)
    (hprice : tile.ownerCosts.get? 0 = some price)
    (hbal : player.balance ≥ price) :
    handle_choice_response board s ws "BUY" =
      some (buyOutcome s pref.lobby lb ws player tile price) ∧
    (player.ownedProperties ++ [player.position]).count player.position
      = player.ownedProperties.count player.position + 1 := by
  constructor
  · simp only [handle_choice_response, buyOutcome, hpref, hlb, hplayer, htile, hprice]
    rw [if_true, if_pos hbal]
  · simp [List.count_append]

/-- Witness for `c10_buy_unchecked`: at the reachable state after
`buyTrace`, player 0 already owns tile 3, the roll is spent, yet a
second BUY succeeds, leaving two copies of tile 3 and balance 1380. -/
theorem c10_buy_unchecked_witness :
    (handle_choice_response testBoard buyState 0 "BUY").isSome = true ∧
    ((handle_choice_response testBoard buyState 0 "BUY").bind fun o =>
        (dget o.state.lobbies "LOBBY1").bind fun lb =>
          (dget lb.players 0).map fun p =>
            (p.ownedProperties.count 3, p.balance))
      = some (2, 1380) := by
  have h := @c10_buy_unchecked testBoard buyState 0
    ⟨"LOBBY1", "A"⟩ (lobbyIn buyState) (playerIn buyState 0) (brownTile 3) 60
    rfl rfl rfl rfl rfl (by decide)
  refine ⟨?_, ?_⟩ <;> rw [h.1] <;> rfl

/-- Claim C7, counterexample.  After `c7trace` player 1 has rolled and
has not had a successful FINISH_TURN, yet their further REQUEST_ROLL
fails with "Not your turn" (the host's repeated GAME_START reset the
turn pointer), not with "Already rolled this turn" as the claim states;
the lobby state is unchanged by the failed request. -/
theorem c7_counterexample :
    ((runTrace testBoard testPawns initState c7trace).bind fun s =>
        (step testBoard testPawns s (Request.REQUEST_ROLL 1 3 4 0)).map fun o =>
          (decide (o.state = s), o.reply))
      = some (true, some (Msg.ERROR 403 "Not your turn")) ∧
    ((runTrace testBoard testPawns initState c7trace).bind fun s =>
        (dget s.lobbies "LOBBY1").bind fun lb =>
          (dget lb.players 1).map Player.has_rolled) = some true := by
  constructor <;> rfl

/-- Claim C7 (amended).  As long as the connection that rolled is still
the current-turn connection, every further REQUEST_ROLL from it fails
with Forbidden "Already rolled this turn" and changes no lobby state;
a successful FINISH_TURN by that player resets `has_rolled`.  (An
intervening host GAME_START can reassign the current turn, making the
roll fail with "Not your turn" instead, as the counterexample shows.) -/
theorem c7_already_rolled {board : List Tile} {s : ServerState}
    {ws d1 d2 cardIdx : Nat} {pref : PlayerRef} {lb : Lobby} {player : Player}
    (hpref : dget s.players ws = some pref)
    (hlb : dget s.lobbies pref.lobby = some lb)
    (hstarted : lb.started = true)
    (hcur : lb.player_order.get? lb.current_turn_index = some ws)
    (hplayer : dget lb.players ws = some player)
    (hrolled : player.has_rolled = true) :
    handle_request_roll board s ws d1 d2 cardIdx =
      some ⟨s, [], some (Msg.ERROR 403 "Already rolled this turn")⟩ := by
  rw [List.get?_eq_getElem?] at hcur
  simp [handle_request_roll, hpref, hlb, hstarted, hcur, hplayer, hrolled]

/-- Witness for `c7_already_rolled`: at the reachable state after
`buyTrace`, player 0 is current and has rolled; a second roll with any
dice fails with "Already rolled this turn" and no state change. -/
theorem c7_already_rolled_witness :
    handle_request_roll testBoard buyState 0 4 5 1 =
      some ⟨buyState, [], some (Msg.ERROR 403 "Already rolled this turn")⟩ :=
  c7_already_rolled rfl rfl rfl rfl rfl rfl

/-- Claim C3, counterexample.  At the reachable state after `c3trace`
(balance 0), both the failed BUY and the failed upgrade reply with error
code 400, not 403 as the claim asserts. -/
theorem c3_counterexample :
    ((runTrace testBoard testPawns initState c3trace).bind fun s =>
        (step testBoard testPawns s (Request.CHOICE_RESPONSE 0 "BUY")).bind replyCode)
      = some 400 ∧
    ((runTrace testBoard testPawns initState c3trace).bind fun s =>
        (step testBoard testPawns s (Request.REQUEST_UPGRADE 0 (some 3))).bind replyCode)
      = some 400 ∧
    (400 : Nat) ≠ 403 := by
  refine ⟨rfl, rfl, by decide⟩

/-- Claim C3 (amended).  A BUY with insufficient balance and a
REQUEST_UPGRADE reaching the affordability check with insufficient
balance each produce a single ERROR reply to the requester only —
carrying code 400 ("Insufficient funds"), the code the source actually
uses, not 403 — with no state change and no broadcast. -/
theorem c3_insufficient_funds_code {board : List Tile} {s : ServerState}
    {ws : Nat} {pref : PlayerRef} {lb : Lobby} {player : Player}
    (hpref : dget s.players ws = some pref)
    (hlb : dget s.lobbies pref.lobby = some lb)
    (hplayer : dget lb.players ws = some player) :
    (∀ tile price, board.get? player.position = some tile →
       tile.ownerCosts.get? 0 = some price → player.balance < price →
       handle_choice_response board s ws "BUY" =
         some ⟨s, [], some (Msg.ERROR 400 "Insufficient funds")⟩) ∧
    (∀ pid tile ownedColors cost,
       player.ownedProperties.contains pid = true →
       board.get? pid = some tile → tile.levelable = true →
       player.ownedProperties.mapM (fun q => (board.get? q).map Tile.color)
         = some ownedColors →
       ¬ (ownedColors.filter fun c => c == tile.color).length <
           (board.filter fun t => t.color == tile.color && t.purchasable).length →
       (dget player.ownedPropertiesLevels pid).getD 0 < 5 →
       tile.ownerCosts.get? ((dget player.ownedPropertiesLevels pid).getD 0 + 1)
         = some cost →
       player.balance < cost →
       handle_request_upgrade board s ws (some pid) =
         some ⟨s, [], some (Msg.ERROR 400 "Insufficient funds")⟩) ∧
    observableSends ws ⟨s, [], some (Msg.ERROR 400 "Insufficient funds")⟩
      = [Event.send ws (Msg.ERROR 400 "Insufficient funds")] := by
  refine ⟨?_, ?_, rfl⟩
  · intro tile price htile hprice hpoor
    simp only [handle_choice_response, hpref, hlb, hplayer, htile, hprice]
    rw [if_true, if_neg (not_le.mpr hpoor)]
  · intro pid tile ownedColors cost howned htile hlev hcolors hmono hlevel hcost hpoor
    simp only [handle_request_upgrade, hpref, hlb, hplayer, htile, hcolors,
               howned, hlev, hcost]
    rw [if_neg (by simp), if_neg (by simp), if_neg hmono,
        if_neg (not_le.mpr hlevel), if_pos hpoor]

/-- Witness for `c3_insufficient_funds_code` at the reachable state
after `c3trace`, where player 0 owns tile 3 (25 times over), stands on
it, and has balance 0 < 60 (price) and 0 < 50 (upgrade cost). -/
theorem c3_insufficient_funds_code_witness :
    handle_choice_response testBoard c3state 0 "BUY" =
      some ⟨c3state, [], some (Msg.ERROR 400 "Insufficient funds")⟩ ∧
    handle_request_upgrade testBoard c3state 0 (some 3) =
      some ⟨c3state, [], some (Msg.ERROR 400 "Insufficient funds")⟩ := by
  have h := @c3_insufficient_funds_code testBoard c3state 0
    ⟨"LOBBY1", "A"⟩ (lobbyIn c3state) (playerIn c3state 0) rfl rfl rfl
  exact ⟨h.1 (brownTile 3) 60 rfl rfl (by decide),
         h.2.1 3 (brownTile 3) (List.replicate 25 "brown") 50 (by decide) rfl rfl
           (by decide) (by decide) (by decide) rfl (by decide)⟩

/-- Claim C8, counterexample.  Joining the started lobby after
`baseTrace` replies with code 403, not the 409 the claim assigns to the
game-already-started Conflict. -/
theorem c8_counterexample :
    ((runTrace testBoard testPawns initState baseTrace).bind fun s =>
        (step testBoard testPawns s (Request.REQUEST_JOIN 2 "C" "LOBBY1")).bind replyCode)
      = some 403 ∧ (403 : Nat) ≠ 409 :=
  ⟨rfl, by decide⟩

/-- Claim C8 (amended).  REQUEST_JOIN fails with a single ERROR reply to
the requester: 404 for an unknown lobby code, 403 (not 409) when the
lobby has started, 409 when the username is already taken, and 403 when
no catalog pawn remains unused; no state change or broadcast occurs. -/
theorem c8_join_failure_codes {pawns : List String} {s : ServerState}
    {ws : Nat} {u code : String} (hu : ¬ u = "") (hc : ¬ code = "") :
    (dget s.lobbies code = none →
       handle_request_join pawns s ws u code =
         some ⟨s, [], some (Msg.ERROR 404 "Lobby not found")⟩) ∧
    (∀ lb, dget s.lobbies code = some lb → lb.started = true →
       handle_request_join pawns s ws u code =
         some ⟨s, [], some (Msg.ERROR 403 "Game already started")⟩) ∧
    (∀ lb, dget s.lobbies code = some lb → lb.started = false →
       (lb.players.any fun p => p.2.username == u) = true →
       handle_request_join pawns s ws u code =
         some ⟨s, [], some (Msg.ERROR 409 "Username already taken")⟩) ∧
    (∀ lb, dget s.lobbies code = some lb → lb.started = false →
       (lb.players.any fun p => p.2.username == u) = false →
       get_available_pawn pawns lb = none →
       handle_request_join pawns s ws u code =
         some ⟨s, [], some (Msg.ERROR 403 "Lobby is full")⟩) := by
  refine ⟨?_, ?_, ?_, ?_⟩
  · intro hnone
    simp [handle_request_join, hu, hc, hnone]
  · intro lb hlb hstarted
    simp [handle_request_join, hu, hc, hlb, hstarted]
  · intro lb hlb hstarted hdup
    simp [handle_request_join, hu, hc, hlb, hstarted, hdup]
  · intro lb hlb hstarted hdup hpawn
    simp [handle_request_join, hu, hc, hlb, hstarted, hdup, hpawn]

theorem dget_dset {κ α : Type} [DecidableEq κ] (l : List (κ × α)) (k k' : κ) (v : α) :
    dget (dset l k v) k' = if k = k' then some v else dget l k' := by
  induction l with
  | nil => by_cases h : k = k' <;> simp [dset, dget, h]
  | cons hd tl ih =>
      obtain ⟨k0, v0⟩ := hd
      by_cases h0 : k0 = k
      · subst h0
        by_cases h1 : k0 = k' <;> simp [dset, dget, h1]
      · by_cases h1 : k0 = k'
        · subst h1
          have hkk : ¬ k = k0 := fun h => h0 h.symm
          simp [dset, dget, h0, hkk]
        · simp [dset, dget, h0, h1, ih]

/-- Claim C2.  For a successful roll by the current-turn player: the new
position is `(old + d1 + d2) % 40`; the balance gains exactly 200 in the
movement phase iff the new position is less than the old (and is
otherwise unchanged by that phase); on wrap the single transaction event
to the mover precedes the `SET_POSITION` broadcast in the handler's
event list, which is the movement events, then the broadcast, then the
landed-tile events. -/
theorem c2_roll_movement {board : List Tile} {s : ServerState}
    {ws d1 d2 cardIdx : Nat} {pref : PlayerRef} {lb : Lobby} {player : Player}
    {res : Lobby × List Event}
    (hpref : dget s.players ws = some pref)
    (hlb : dget s.lobbies pref.lobby = some lb)
    (hstarted : lb.started = true)
    (hcur : lb.player_order.get? lb.current_turn_index = some ws)
    (hplayer : dget lb.players ws = some player)
    (hrolled : player.has_rolled = false)
    (hd1 : 1 ≤ d1 ∧ d1 ≤ 6) (hd2 : 1 ≤ d2 ∧ d2 ≤ 6)
    (hres : resolveTile board ws (movedLobby lb ws player (d1 + d2))
      ((player.position + (d1 + d2)) % 40) cardIdx = some res) :
    ((rollMovement ws player (d1 + d2)).1.position
        = (player.position + d1 + d2) % 40) ∧
    ((rollMovement ws player (d1 + d2)).1.balance
        = player.balance +
            (if (player.position + d1 + d2) % 40 < player.position then 200 else 0)) ∧
    ((rollMovement ws player (d1 + d2)).2
        = if (player.position + d1 + d2) % 40 < player.position then
            [Event.send ws (Msg.TRANSACTION 200 (player.balance + 200))]
          else []) ∧
    handle_request_roll board s ws d1 d2 cardIdx =
      some ⟨{ s with lobbies := dset s.lobbies pref.lobby res.1 },
            (rollMovement ws player (d1 + d2)).2
              ++ broadcastEvents (dset s.lobbies pref.lobby
                    (movedLobby lb ws player (d1 + d2))) pref.lobby
                  (Msg.SET_POSITION (rollMovement ws player (d1 + d2)).1.username
                    ((player.position + (d1 + d2)) % 40)) none
              ++ res.2,
            none⟩ := by
  rw [List.get?_eq_getElem?] at hcur
  refine ⟨?_, ?_, ?_, ?_⟩
  · by_cases hw : (player.position + (d1 + d2)) % 40 < player.position <;>
      simp [rollMovement, Nat.add_assoc, hw]
  · by_cases hw : (player.position + (d1 + d2)) % 40 < player.position <;>
      simp [rollMovement, Nat.add_assoc, hw]
  · by_cases hw : (player.position + (d1 + d2)) % 40 < player.position <;>
      simp [rollMovement, Nat.add_assoc, hw]
  · simp [handle_request_roll, movedLobby, hpref, hlb, hstarted, hcur,
          hplayer, hrolled, hres] at hres ⊢
    simp [hres]

/-- Witness for `c2_roll_movement` at the state after `baseTrace`:
player 0 at position 0 rolls 2 + 3 and lands on the inert tile 5. -/
theorem c2_roll_movement_witness :
    (rollMovement 0 (playerIn baseState 0) (2 + 3)).1.position
      = ((playerIn baseState 0).position + 2 + 3) % 40 :=
  (@c2_roll_movement testBoard baseState 0 2 3 0
    ⟨"LOBBY1", "A"⟩ (lobbyIn baseState) (playerIn baseState 0)
    (movedLobby (lobbyIn baseState) 0 (playerIn baseState 0) 5, [])
    rfl rfl rfl rfl rfl rfl (by decide) (by decide) rfl).1

/-- Claim C4, counterexample.  After the reachable trace `c4trace` the
upgrade of tile 3 succeeded (level 1 recorded, cost 50 debited:
1500 - 60 - 60 - 50 = 1330) although tile 1 — purchasable and of the
same color "brown" as tile 3 — is not in the caller's owned list: the
length-based monopoly check was satisfied by the duplicate entry for
tile 3, so success does not require owning every purchasable tile of
the color. -/
theorem c4_counterexample :
    ((runTrace testBoard testPawns initState c4trace).bind fun s =>
        (dget s.lobbies "LOBBY1").bind fun lb =>
          (dget lb.players 0).map fun p =>
            (dget p.ownedPropertiesLevels 3, p.balance,
             p.ownedProperties.contains 1))
      = some (some 1, 1330, false) ∧
    ((testBoard.get? 1).map fun t => (t.purchasable, t.color)) = some (true, "brown") ∧
    ((testBoard.get? 3).map Tile.color) = some "brown" := by
  exact ⟨rfl, rfl, rfl⟩

/-- Claim C4 (amended).  The monopoly gate compares list lengths: the
upgrade fails Forbidden when the caller's owned entries of the tile's
color (counted with multiplicity) are fewer than the purchasable board
tiles of that color, and succeeds once the counts reach parity — which
coincides with owning every such tile only when the owned list is
duplicate-free.  On success it debits exactly
`owner-costs[current_level + 1]` and sets the level to
`current_level + 1`. -/
theorem c4_upgrade_monopoly_check {board : List Tile} {s : ServerState}
    {ws pid : Nat} {pref : PlayerRef} {lb : Lobby} {player : Player}
    {tile : Tile} {ownedColors : List String}
    (hpref : dget s.players ws = some pref)
    (hlb : dget s.lobbies pref.lobby = some lb)
    (hplayer : dget lb.players ws = some player)
    (howned : player.ownedProperties.contains pid = true)
    (htile : board.get? pid = some tile)
    (hlev : tile.levelable = true)
    (hcolors : player.ownedProperties.mapM (fun q => (board.get? q).map Tile.color)
      = some ownedColors) :
    ((ownedColors.filter fun c => c == tile.color).length <
       (board.filter fun t => t.color == tile.color && t.purchasable).length →
       handle_request_upgrade board s ws (some pid) =
         some ⟨s, [], some (Msg.ERROR 403
           "You must own all properties of this color to upgrade")⟩) ∧
    (∀ cost : Int,
       ¬ (ownedColors.filter fun c => c == tile.color).length <
           (board.filter fun t => t.color == tile.color && t.purchasable).length →
       (dget player.ownedPropertiesLevels pid).getD 0 < 5 →
       tile.ownerCosts.get? ((dget player.ownedPropertiesLevels pid).getD 0 + 1)
         = some cost →
       ¬ player.balance < cost →
       handle_request_upgrade board s ws (some pid) =
         some ⟨upgradeState s pref.lobby lb ws player pid cost,
               [Event.send ws (Msg.TRANSACTION (-cost) (player.balance - cost)),
                Event.send ws (Msg.PROPERTY_UPGRADE pid
                  ((dget player.ownedPropertiesLevels pid).getD 0 + 1))],
               none⟩) := by
  constructor
  · intro hshort
    simp only [handle_request_upgrade, hpref, hlb, hplayer, htile, hcolors,
               howned, hlev]
    rw [if_neg (by simp), if_neg (by simp), if_pos hshort]
  · intro cost hmono hlevel hcost hafford
    simp only [handle_request_upgrade, upgradeState, hpref, hlb, hplayer,
               htile, hcolors, howned, hlev, hcost]
    rw [if_neg (by simp), if_neg (by simp), if_neg hmono,
        if_neg (not_le.mpr hlevel), if_neg hafford]

/-- Witness for `c4_upgrade_monopoly_check`: at the state after
`buyTrace` (one owned brown entry, two purchasable brown tiles) the
upgrade is Forbidden; at the state after `c1trace` (two owned brown
entries via the duplicate) it succeeds at cost 50 to level 1. -/
theorem c4_upgrade_monopoly_check_witness :
    handle_request_upgrade testBoard buyState 0 (some 3) =
      some ⟨buyState, [], some (Msg.ERROR 403
        "You must own all properties of this color to upgrade")⟩ ∧
    handle_request_upgrade testBoard (stateAfter c1trace) 0 (some 3) =
      some ⟨upgradeState (stateAfter c1trace) "LOBBY1" (lobbyIn (stateAfter c1trace))
              0 (playerIn (stateAfter c1trace) 0) 3 50,
            [Event.send 0 (Msg.TRANSACTION (-50) 1330),
             Event.send 0 (Msg.PROPERTY_UPGRADE 3 1)],
            none⟩ := by
  constructor
  · exact (@c4_upgrade_monopoly_check testBoard buyState 0 3
      ⟨"LOBBY1", "A"⟩ (lobbyIn buyState) (playerIn buyState 0) (brownTile 3)
      ["brown"]
      rfl rfl rfl (by decide) rfl rfl rfl).1 (by decide)
  · exact (@c4_upgrade_monopoly_check testBoard (stateAfter c1trace) 0 3
      ⟨"LOBBY1", "A"⟩ (lobbyIn (stateAfter c1trace))
      (playerIn (stateAfter c1trace) 0) (brownTile 3)
      ["brown", "brown"]
      rfl rfl rfl (by decide) rfl rfl rfl).2 50 (by decide) (by decide) rfl
      (by decide)

/-- Claim C6.  FINISH_TURN: with the game not started it fails with a
validation error; with a different connection current it fails Forbidden
"Not your turn"; for the current-turn caller it clears that player's
`has_rolled`, advances `current_turn_index` by one modulo the length of
the player order (round-robin with wraparound), and broadcasts the new
current player's name to the lobby. -/
theorem c6_finish_turn {s : ServerState} {ws : Nat} {pref : PlayerRef} {lb : Lobby}
    (hpref : dget s.players ws = some pref)
    (hlb : dget s.lobbies pref.lobby = some lb) :
    (lb.started = false →
       handle_finish_turn s ws =
         some ⟨s, [], some (Msg.ERROR 400 "Game not started")⟩) ∧
    (∀ cws, lb.started = true →
       lb.player_order.get? lb.current_turn_index = some cws → cws ≠ ws →
       handle_finish_turn s ws =
         some ⟨s, [], some (Msg.ERROR 403 "Not your turn")⟩) ∧
    (∀ p np nws, lb.started = true →
       lb.player_order.get? lb.current_turn_index = some ws →
       dget lb.players ws = some p →
       lb.player_order.get? ((lb.current_turn_index + 1) % lb.player_order.length)
         = some nws →
       dget (advancedLobby lb ws p).players nws = some np →
       handle_finish_turn s ws =
         some ⟨advancedState s pref.lobby lb ws p,
               broadcastEvents (advancedState s pref.lobby lb ws p).lobbies
                 pref.lobby (Msg.NEXT_TURN np.username) none,
               none⟩ ∧
       (advancedLobby lb ws p).current_turn_index
         = (lb.current_turn_index + 1) % lb.player_order.length ∧
       (dget (advancedLobby lb ws p).players ws).map Player.has_rolled
         = some false) := by
  refine ⟨?_, ?_, ?_⟩
  · intro hns
    simp [handle_finish_turn, hpref, hlb, hns]
  · intro cws hst hcur hne
    rw [List.get?_eq_getElem?] at hcur
    simp [handle_finish_turn, hpref, hlb, hst, hcur, hne]
  · intro p np nws hst hcur hp hnext hnp
    rw [List.get?_eq_getElem?] at hcur hnext
    refine ⟨?_, rfl, ?_⟩
    · simp only [advancedLobby, advancedState] at hnp ⊢
      simp [handle_finish_turn, hpref, hlb, hst, hcur, hp, hnext, hnp]
    · simp only [advancedLobby]
      rw [dget_dset]
      simp

/-- Witness for `c6_finish_turn` at the state after `baseTrace`:
player 1 (not current) is rejected Forbidden, and player 0's
FINISH_TURN advances the index from 0 to 1 and announces player "B". -/
theorem c6_finish_turn_witness :
    handle_finish_turn baseState 1 =
      some ⟨baseState, [], some (Msg.ERROR 403 "Not your turn")⟩ ∧
    (handle_finish_turn baseState 0 =
       some ⟨advancedState baseState "LOBBY1" (lobbyIn baseState) 0 (playerIn baseState 0),
             broadcastEvents
               (advancedState baseState "LOBBY1" (lobbyIn baseState) 0
                 (playerIn baseState 0)).lobbies
               "LOBBY1" (Msg.NEXT_TURN "B") none,
             none⟩ ∧
     (advancedLobby (lobbyIn baseState) 0 (playerIn baseState 0)).current_turn_index
       = ((lobbyIn baseState).current_turn_index + 1)
           % (lobbyIn baseState).player_order.length ∧
     (dget (advancedLobby (lobbyIn baseState) 0 (playerIn baseState 0)).players 0).map
         Player.has_rolled = some false) := by
  constructor
  · exact (@c6_finish_turn baseState 1
      ⟨"LOBBY1", "B"⟩ (lobbyIn baseState) rfl rfl).2.1
      0 rfl rfl (by decide)
  · exact (@c6_finish_turn baseState 0
      ⟨"LOBBY1", "A"⟩ (lobbyIn baseState) rfl rfl).2.2
      (playerIn baseState 0) (playerIn baseState 1) 1 rfl rfl rfl rfl rfl

/-- Witness for `c8_join_failure_codes`: all four failure modes at
concrete reachable states — unknown code (at `baseState`), started
lobby (`baseState`), duplicate username (`pairState`), exhausted pawn
catalog (`fullState`). -/
theorem c8_join_failure_codes_witness :
    handle_request_join testPawns baseState 2 "C" "NOPE" =
      some ⟨baseState, [], some (Msg.ERROR 404 "Lobby not found")⟩ ∧
    handle_request_join testPawns baseState 2 "C" "LOBBY1" =
      some ⟨baseState, [], some (Msg.ERROR 403 "Game already started")⟩ ∧
    handle_request_join testPawns pairState 2 "B" "LOBBY1" =
      some ⟨pairState, [], some (Msg.ERROR 409 "Username already taken")⟩ ∧
    handle_request_join testPawns fullState 4 "E" "LOBBY1" =
      some ⟨fullState, [], some (Msg.ERROR 403 "Lobby is full")⟩ := by
  refine ⟨(c8_join_failure_codes (by decide) (by decide)).1 rfl,
          (c8_join_failure_codes (by decide) (by decide)).2.1
            (lobbyIn baseState) rfl rfl,
          (c8_join_failure_codes (by decide) (by decide)).2.2.1
            (lobbyIn pairState) rfl rfl (by decide),
          (c8_join_failure_codes (by decide) (by decide)).2.2.2
            (lobbyIn fullState) rfl rfl (by decide) rfl⟩

end MonopolyServer
